import Mathlib

/-!
Shallow embedding of the `DisasterRelief` smart contract
(src/smart-contracts/BlockAidToken.sol) and proofs of its
specification's properties.

Solidity `uint256` values are modelled as `Nat` (no arithmetic here ever
approaches `2^256`, and all source operations on them are comparisons,
increments and bounded additions guarded by `require`).  Addresses are
modelled as `Nat`.  Each external function is translated statement by
statement: `require` failures return the state as it stood at the failing
check (in this contract every `require` precedes every mutation), successes
return the mutated state; the returned `Except` carries the `require`
message as an error constructor.  `emit` is modelled by appending to a log.
-/

namespace DisasterRelief

/-- Addresses are modelled as natural numbers. -/
abbrev Address := Nat

/-- Solidity `enum DisasterType { FLOOD, EARTHQUAKE, CYCLONE, LANDSLIDE }`. -/
inductive DisasterType
  | FLOOD
  | EARTHQUAKE
  | CYCLONE
  | LANDSLIDE
deriving DecidableEq, Repr

/-- Solidity `enum SeverityLevel { LOW, MEDIUM, HIGH }`. -/
inductive SeverityLevel
  | LOW
  | MEDIUM
  | HIGH
deriving DecidableEq, Repr

/-- Solidity `enum FundStatus { PENDING, APPROVED, DISTRIBUTED, REJECTED }`. -/
inductive FundStatus
  | PENDING
  | APPROVED
  | DISTRIBUTED
  | REJECTED
deriving DecidableEq, Repr

/-- The `struct DisasterEvent` of the contract. -/
structure DisasterEvent where
  eventId : Nat
  disasterType : DisasterType
  location : String
  timestamp : Nat
  imageHash : String
  severityScore : Nat
  severityLevel : SeverityLevel
  reportedBy : Address
  isVerified : Bool
  estimatedAffected : Nat
  infrastructureDamage : Nat
  impactArea : Nat
deriving DecidableEq, Repr

/-- The `struct FundTransaction` of the contract. -/
structure FundTransaction where
  transactionId : Nat
  eventId : Nat
  donor : Address
  amount : Nat
  timestamp : Nat
  status : FundStatus
  purpose : String
  isBlockchainVerified : Bool
deriving DecidableEq, Repr

/-- The `struct DisasterFund` of the contract. -/
structure DisasterFund where
  fundId : Nat
  eventId : Nat
  totalAmount : Nat
  distributedAmount : Nat
  createdAt : Nat
  approvedBy : Address
  status : FundStatus
deriving DecidableEq, Repr

/-- The contract's `event` declarations, as entries of an emission log. -/
inductive LogEvent
  | DisasterEventCreated (eventId : Nat) (dtype : DisasterType)
      (location : String) (severityScore : Nat) (reportedBy : Address)
  | DisasterEventVerified (eventId : Nat) (isVerified : Bool)
  | FundDonated (transactionId : Nat) (eventId : Nat) (donor : Address) (amount : Nat)
  | FundApproved (fundId : Nat) (eventId : Nat) (amount : Nat) (approvedBy : Address)
  | FundDistributed (fundId : Nat) (eventId : Nat) (amount : Nat)
deriving DecidableEq, Repr

/-- One constructor per `require` message of the contract (plus the
`Ownable` owner check).  The spec's error taxonomy maps onto these:
`imageAlreadyProcessed` is the DuplicateError, `alreadyVerified` the
AlreadyVerifiedError, `notAuthorized` the AuthorizationError,
`eventDoesNotExist`/`fundDoesNotExist` the NotFoundError,
`insufficientFundBalance` the InsufficientFundsError,
`insufficientContractBalance` the InsufficientBalanceError, and
`invalidSeverityScore`/`donationNotPositive`/`eventNotVerified`/
`amountNotPositive`/`fundNotApproved` the ValidationError cases. -/
inductive Err
  | notAuthorized
  | eventDoesNotExist
  | fundDoesNotExist
  | invalidSeverityScore
  | imageAlreadyProcessed
  | alreadyVerified
  | donationNotPositive
  | eventNotVerified
  | amountNotPositive
  | fundNotApproved
  | insufficientFundBalance
  | insufficientContractBalance
  | onlyOwner
deriving DecidableEq, Repr

/-- Pointwise update of a Solidity `mapping` modelled as a total function. -/
def mapSet {κ α : Type} [DecidableEq κ] (m : κ → α) (k : κ) (v : α) : κ → α :=
  fun i => if i = k then v else m i

/-- The zero-initialized `DisasterEvent` a Solidity mapping yields for an
absent key. -/
def defaultEvent : DisasterEvent :=
  { eventId := 0, disasterType := .FLOOD, location := "", timestamp := 0,
    imageHash := "", severityScore := 0, severityLevel := .LOW, reportedBy := 0,
    isVerified := false, estimatedAffected := 0, infrastructureDamage := 0,
    impactArea := 0 }

/-- The zero-initialized `FundTransaction`. -/
def defaultTransaction : FundTransaction :=
  { transactionId := 0, eventId := 0, donor := 0, amount := 0, timestamp := 0,
    status := .PENDING, purpose := "", isBlockchainVerified := false }

/-- The zero-initialized `DisasterFund`. -/
def defaultFund : DisasterFund :=
  { fundId := 0, eventId := 0, totalAmount := 0, distributedAmount := 0,
    createdAt := 0, approvedBy := 0, status := .PENDING }

/-- The contract's state variables, plus the contract's ether balance and
the log of emitted events. -/
structure ContractState where
  owner : Address
  eventCounter : Nat
  transactionCounter : Nat
  fundCounter : Nat
  disasterEvents : Nat → DisasterEvent
  fundTransactions : Nat → FundTransaction
  disasterFunds : Nat → DisasterFund
  processedImageHashes : String → Bool
  authorizedOfficials : Address → Bool
  allEventIds : List Nat
  allTransactionIds : List Nat
  balance : Nat
  log : List LogEvent

/-- Per-call context: `msg.sender`, `msg.value`, `block.timestamp`. -/
structure Ctx where
  sender : Address
  value : Nat
  timestamp : Nat
deriving DecidableEq, Repr

/-- The constructor: the deployer becomes `Ownable` owner and is put in
`authorizedOfficials`. -/
def initialState (deployer : Address) : ContractState :=
  { owner := deployer, eventCounter := 0, transactionCounter := 0,
    fundCounter := 0,
    disasterEvents := fun _ => defaultEvent,
    fundTransactions := fun _ => defaultTransaction,
    disasterFunds := fun _ => defaultFund,
    processedImageHashes := fun _ => false,
    authorizedOfficials := mapSet (fun _ => false) deployer true,
    allEventIds := [], allTransactionIds := [], balance := 0, log := [] }

/-- The `onlyAuthorized` modifier's condition:
`msg.sender == owner() || authorizedOfficials[msg.sender]`. -/
def authorizedCheck (s : ContractState) (c : Ctx) : Prop :=
  c.sender = s.owner ∨ s.authorizedOfficials c.sender = true

instance (s : ContractState) (c : Ctx) : Decidable (authorizedCheck s c) := by
  unfold authorizedCheck; infer_instance

/-- The `eventExists` modifier's condition. -/
def eventInRange (s : ContractState) (eventId : Nat) : Prop :=
  0 < eventId ∧ eventId ≤ s.eventCounter

instance (s : ContractState) (i : Nat) : Decidable (eventInRange s i) := by
  unfold eventInRange; infer_instance

/-- The `fundExists` modifier's condition. -/
def fundInRange (s : ContractState) (fundId : Nat) : Prop :=
  0 < fundId ∧ fundId ≤ s.fundCounter

instance (s : ContractState) (i : Nat) : Decidable (fundInRange s i) := by
  unfold fundInRange; infer_instance

/-- Function `getSeverityLevel`: `<= 40` LOW, `<= 70` MEDIUM, otherwise HIGH. -/
def getSeverityLevel (score : Nat) : SeverityLevel :=
  if score ≤ 40 then .LOW
  else if score ≤ 70 then .MEDIUM
  else .HIGH

/-- Function `addAuthorizedOfficial` (`onlyOwner`). -/
def addAuthorizedOfficial (s : ContractState) (c : Ctx) (official : Address) :
    ContractState × Except Err Unit :=
  if ¬ (c.sender = s.owner) then (s, .error .onlyOwner)
  else
    ({ s with authorizedOfficials := mapSet s.authorizedOfficials official true },
     .ok ())

/-- Function `removeAuthorizedOfficial` (`onlyOwner`). -/
def removeAuthorizedOfficial (s : ContractState) (c : Ctx) (official : Address) :
    ContractState × Except Err Unit :=
  if ¬ (c.sender = s.owner) then (s, .error .onlyOwner)
  else
    ({ s with authorizedOfficials := mapSet s.authorizedOfficials official false },
     .ok ())

/-- Function `createDisasterEvent`, translated statement by statement. -/
def createDisasterEvent (s : ContractState) (c : Ctx)
    (ty : DisasterType) (location imageHash : String)
    (severityScore affectedPopulation infrastructureDamage impactArea : Nat) :
    ContractState × Except Err Nat :=
  if ¬ authorizedCheck s c then (s, .error .notAuthorized)
  else if ¬ (severityScore ≤ 100) then (s, .error .invalidSeverityScore)
  else if s.processedImageHashes imageHash = true then
    (s, .error .imageAlreadyProcessed)
  else
    let eventId := s.eventCounter + 1
    let level := getSeverityLevel severityScore
    let ev : DisasterEvent :=
      { eventId := eventId, disasterType := ty, location := location,
        timestamp := c.timestamp, imageHash := imageHash,
        severityScore := severityScore, severityLevel := level,
        reportedBy := c.sender, isVerified := false,
        estimatedAffected := affectedPopulation,
        infrastructureDamage := infrastructureDamage, impactArea := impactArea }
    ({ s with eventCounter := eventId,
              disasterEvents := mapSet s.disasterEvents eventId ev,
              processedImageHashes := mapSet s.processedImageHashes imageHash true,
              allEventIds := s.allEventIds ++ [eventId],
              log := s.log ++ [.DisasterEventCreated eventId ty location
                                 severityScore c.sender] },
     .ok eventId)

/-- Function `verifyDisasterEvent`. -/
def verifyDisasterEvent (s : ContractState) (c : Ctx) (eventId : Nat) :
    ContractState × Except Err Unit :=
  if ¬ authorizedCheck s c then (s, .error .notAuthorized)
  else if ¬ eventInRange s eventId then (s, .error .eventDoesNotExist)
  else if (s.disasterEvents eventId).isVerified = true then
    (s, .error .alreadyVerified)
  else
    let ev := s.disasterEvents eventId
    ({ s with disasterEvents := mapSet s.disasterEvents eventId
                                  { ev with isVerified := true },
              log := s.log ++ [.DisasterEventVerified eventId true] },
     .ok ())

/-- Function `donateToEvent` (payable; `msg.value` is credited to the contract
balance on success, a revert refunds it). -/
def donateToEvent (s : ContractState) (c : Ctx) (eventId : Nat)
    (purpose : String) : ContractState × Except Err Unit :=
  if ¬ eventInRange s eventId then (s, .error .eventDoesNotExist)
  else if ¬ (0 < c.value) then (s, .error .donationNotPositive)
  else if ¬ ((s.disasterEvents eventId).isVerified = true) then
    (s, .error .eventNotVerified)
  else
    let transactionId := s.transactionCounter + 1
    let t : FundTransaction :=
      { transactionId := transactionId, eventId := eventId, donor := c.sender,
        amount := c.value, timestamp := c.timestamp, status := .PENDING,
        purpose := purpose, isBlockchainVerified := true }
    ({ s with transactionCounter := transactionId,
              fundTransactions := mapSet s.fundTransactions transactionId t,
              allTransactionIds := s.allTransactionIds ++ [transactionId],
              balance := s.balance + c.value,
              log := s.log ++ [.FundDonated transactionId eventId c.sender
                                 c.value] },
     .ok ())

/-- Function `createAndApproveFund`. -/
def createAndApproveFund (s : ContractState) (c : Ctx)
    (eventId amount : Nat) : ContractState × Except Err Unit :=
  if ¬ authorizedCheck s c then (s, .error .notAuthorized)
  else if ¬ eventInRange s eventId then (s, .error .eventDoesNotExist)
  else if ¬ (0 < amount) then (s, .error .amountNotPositive)
  else if ¬ ((s.disasterEvents eventId).isVerified = true) then
    (s, .error .eventNotVerified)
  else
    let fundId := s.fundCounter + 1
    let f : DisasterFund :=
      { fundId := fundId, eventId := eventId, totalAmount := amount,
        distributedAmount := 0, createdAt := c.timestamp,
        approvedBy := c.sender, status := .APPROVED }
    ({ s with fundCounter := fundId,
              disasterFunds := mapSet s.disasterFunds fundId f,
              log := s.log ++ [.FundApproved fundId eventId amount c.sender] },
     .ok ())

/-- Function `distributeFund`.  The `transfer` to the recipient is modelled as the
balance decrease (recipients are plain addresses and accept transfers). -/
def distributeFund (s : ContractState) (c : Ctx) (fundId : Nat)
    (_recipient : Address) (amount : Nat) : ContractState × Except Err Unit :=
  if ¬ authorizedCheck s c then (s, .error .notAuthorized)
  else if ¬ fundInRange s fundId then (s, .error .fundDoesNotExist)
  else
    let fund := s.disasterFunds fundId
    if ¬ (fund.status = .APPROVED) then (s, .error .fundNotApproved)
    else if ¬ (fund.distributedAmount + amount ≤ fund.totalAmount) then
      (s, .error .insufficientFundBalance)
    else if ¬ (amount ≤ s.balance) then (s, .error .insufficientContractBalance)
    else
      let fund2 : DisasterFund :=
        { fund with distributedAmount := fund.distributedAmount + amount }
      let fund3 : DisasterFund :=
        if fund2.totalAmount ≤ fund2.distributedAmount then
          { fund2 with status := .DISTRIBUTED }
        else fund2
      ({ s with disasterFunds := mapSet s.disasterFunds fundId fund3,
                balance := s.balance - amount,
                log := s.log ++ [.FundDistributed fundId fund.eventId amount] },
       .ok ())

/-- The fallback `receive() external payable` function: a plain ether deposit. -/
def receiveEther (s : ContractState) (c : Ctx) : ContractState :=
  { s with balance := s.balance + c.value }

/-- One external call to the contract, with its call context. -/
inductive Op
  | createDisasterEvent (c : Ctx) (ty : DisasterType) (location imageHash : String)
      (severityScore affectedPopulation infrastructureDamage impactArea : Nat)
  | verifyDisasterEvent (c : Ctx) (eventId : Nat)
  | donateToEvent (c : Ctx) (eventId : Nat) (purpose : String)
  | createAndApproveFund (c : Ctx) (eventId amount : Nat)
  | distributeFund (c : Ctx) (fundId : Nat) (recipient : Address) (amount : Nat)
  | addAuthorizedOfficial (c : Ctx) (official : Address)
  | removeAuthorizedOfficial (c : Ctx) (official : Address)
  | receiveEther (c : Ctx)

/-- Run one call, keeping the resulting state and the call's outcome. -/
def runOp (op : Op) (s : ContractState) : ContractState × Except Err Unit :=
  match op with
  | .createDisasterEvent c ty l h sc ap inf ia =>
      let r := createDisasterEvent s c ty l h sc ap inf ia
      (r.1, r.2.map fun _ => ())
  | .verifyDisasterEvent c i => verifyDisasterEvent s c i
  | .donateToEvent c i p => donateToEvent s c i p
  | .createAndApproveFund c i a => createAndApproveFund s c i a
  | .distributeFund c i r a => distributeFund s c i r a
  | .addAuthorizedOfficial c o => addAuthorizedOfficial s c o
  | .removeAuthorizedOfficial c o => removeAuthorizedOfficial s c o
  | .receiveEther c => (receiveEther s c, .ok ())

/-- The state after one call (a reverted call leaves the state unchanged,
which `runOp` already returns in its error branches). -/
def execOp (op : Op) (s : ContractState) : ContractState :=
  (runOp op s).1

/-- The state after a sequence of calls. -/
def execOps (ops : List Op) (s : ContractState) : ContractState :=
  match ops with
  | [] => s
  | op :: rest => execOps rest (execOp op s)

/-- One `distributeFund` call: context, fund id, recipient, amount. -/
structure DistCall where
  c : Ctx
  fundId : Nat
  recipient : Address
  amount : Nat

/-- The state after a sequence of `distributeFund` calls. -/
def execDistributes (calls : List DistCall) (s : ContractState) : ContractState :=
  match calls with
  | [] => s
  | d :: rest =>
      execDistributes rest (distributeFund s d.c d.fundId d.recipient d.amount).1

/-- The fund-pool invariant of the spec: the distributed amount never
exceeds the total, and the status is DISTRIBUTED exactly when the
distributed amount has reached the total. -/
def FundInv (f : DisasterFund) : Prop :=
  f.distributedAmount ≤ f.totalAmount ∧
    (f.status = .DISTRIBUTED ↔ f.distributedAmount = f.totalAmount)

instance (f : DisasterFund) : Decidable (FundInv f) := by
  unfold FundInv; infer_instance

/-- A fund's status only moves forward: it either stays what it was, or
moves from APPROVED to DISTRIBUTED. -/
def statusForward (a b : FundStatus) : Prop :=
  b = a ∨ (a = .APPROVED ∧ b = .DISTRIBUTED)

instance (a b : FundStatus) : Decidable (statusForward a b) := by
  unfold statusForward; infer_instance

/-- A state reachable by some sequence of calls from a fresh deployment. -/
def Reachable (s : ContractState) : Prop :=
  ∃ (deployer : Address) (ops : List Op), s = execOps ops (initialState deployer)

/-- Every existing fund pool of a state satisfies the fund invariant. -/
def FundInvAll (s : ContractState) : Prop :=
  ∀ fundId, fundInRange s fundId → FundInv (s.disasterFunds fundId)

/-! ### Concrete demonstration states used by the witnesses -/

/-- The deployer's call context. -/
def demoCtx : Ctx := { sender := 0, value := 0, timestamp := 5 }

/-- Freshly deployed contract. -/
def demoS0 : ContractState := initialState 0

/-- A call history: create event 1, verify it, approve fund 1 of total 100
for it, deposit 1000 wei. -/
def demoOps : List Op :=
  [.createDisasterEvent demoCtx .FLOOD "dhaka" "h1" 50 1000 40 10,
   .verifyDisasterEvent demoCtx 1,
   .createAndApproveFund demoCtx 1 100,
   .receiveEther { sender := 9, value := 1000, timestamp := 7 }]

/-- State after event 1 is created. -/
def demoS1 : ContractState :=
  (createDisasterEvent demoS0 demoCtx .FLOOD "dhaka" "h1" 50 1000 40 10).1

/-- State after event 1 is verified. -/
def demoS2 : ContractState := (verifyDisasterEvent demoS1 demoCtx 1).1

/-- State after the whole history `demoOps`. -/
def demoS4 : ContractState := execOps demoOps demoS0

/-- Two distributions on fund 1 that exactly exhaust its total of 100. -/
def demoCalls : List DistCall :=
  [{ c := demoCtx, fundId := 1, recipient := 5, amount := 60 },
   { c := demoCtx, fundId := 1, recipient := 5, amount := 40 }]

/-! ### Helper lemmas -/

lemma statusForward_refl (a : FundStatus) : statusForward a a := Or.inl rfl

lemma statusForward_trans {a b c : FundStatus} (h1 : statusForward a b)
    (h2 : statusForward b c) : statusForward a c := by
  unfold statusForward at *
  rcases h1 with h1 | ⟨ha, hb⟩ <;> rcases h2 with h2 | ⟨hb2, hc⟩ <;>
    subst_vars <;> simp_all

lemma mapSet_same {κ α : Type} [DecidableEq κ] (m : κ → α) (k : κ) (v : α) :
    mapSet m k v k = v := by
  simp [mapSet]

lemma mapSet_other {κ α : Type} [DecidableEq κ] (m : κ → α) (k k2 : κ)
    (v : α) (h : k2 ≠ k) : mapSet m k v k2 = m k2 := by
  simp [mapSet, h]

/-- One `distributeFund` call preserves the fund invariant of every fund,
never decreases any fund's distributed amount, never changes any fund's
total, and only moves a fund's status forward. -/
lemma distributeFund_fund_step (s : ContractState) (c : Ctx) (fid : Nat)
    (r : Address) (amt : Nat) (j : Nat) (hInv : FundInv (s.disasterFunds j)) :
    FundInv (((distributeFund s c fid r amt).1).disasterFunds j) ∧
    (s.disasterFunds j).distributedAmount ≤
      (((distributeFund s c fid r amt).1).disasterFunds j).distributedAmount ∧
    (((distributeFund s c fid r amt).1).disasterFunds j).totalAmount =
      (s.disasterFunds j).totalAmount ∧
    statusForward (s.disasterFunds j).status
      (((distributeFund s c fid r amt).1).disasterFunds j).status := by
  simp only [distributeFund]
  split_ifs with h1 h2 h3 h4 h5 hFull
  · -- success, the pool becomes fully distributed
    by_cases hj : j = fid
    · subst hj
      unfold FundInv statusForward
      dsimp only
      rw [mapSet_same]
      dsimp only
      refine ⟨⟨by omega, ?_⟩, by omega, rfl, Or.inr ⟨h3, rfl⟩⟩
      constructor
      · intro _
        omega
      · intro _
        rfl
    · dsimp only
      rw [mapSet_other _ _ _ _ hj]
      exact ⟨hInv, le_rfl, rfl, statusForward_refl _⟩
  · -- success, the pool stays partially distributed
    by_cases hj : j = fid
    · subst hj
      unfold FundInv statusForward
      dsimp only
      rw [mapSet_same]
      dsimp only
      refine ⟨⟨by omega, ?_⟩, by omega, rfl, Or.inl rfl⟩
      constructor
      · intro hst
        rw [h3] at hst
        exact absurd hst (by simp)
      · intro he
        omega
    · dsimp only
      rw [mapSet_other _ _ _ _ hj]
      exact ⟨hInv, le_rfl, rfl, statusForward_refl _⟩
  · exact ⟨hInv, le_rfl, rfl, statusForward_refl _⟩
  · exact ⟨hInv, le_rfl, rfl, statusForward_refl _⟩
  · exact ⟨hInv, le_rfl, rfl, statusForward_refl _⟩
  · exact ⟨hInv, le_rfl, rfl, statusForward_refl _⟩
  · exact ⟨hInv, le_rfl, rfl, statusForward_refl _⟩

/-- A sequence of `distributeFund` calls preserves the fund invariant,
never decreases a fund's distributed amount, keeps its total, and only
moves its status forward. -/
lemma execDistributes_fund_facts (calls : List DistCall) (s : ContractState)
    (j : Nat) (hInv : FundInv (s.disasterFunds j)) :
    FundInv ((execDistributes calls s).disasterFunds j) ∧
    (s.disasterFunds j).distributedAmount ≤
      ((execDistributes calls s).disasterFunds j).distributedAmount ∧
    ((execDistributes calls s).disasterFunds j).totalAmount =
      (s.disasterFunds j).totalAmount ∧
    statusForward (s.disasterFunds j).status
      ((execDistributes calls s).disasterFunds j).status := by
  induction calls generalizing s with
  | nil => exact ⟨hInv, le_rfl, rfl, statusForward_refl _⟩
  | cons d rest ih =>
      simp only [execDistributes]
      obtain ⟨h1, h2, h3, h4⟩ :=
        distributeFund_fund_step s d.c d.fundId d.recipient d.amount j hInv
      obtain ⟨g1, g2, g3, g4⟩ := ih _ h1
      exact ⟨g1, le_trans h2 g2, by rw [g3, h3], statusForward_trans h4 g4⟩

/-- Every call preserves "all existing funds satisfy the invariant". -/
lemma execOp_preserves_FundInvAll (op : Op) (s : ContractState)
    (h : FundInvAll s) : FundInvAll (execOp op s) := by
  intro fid hfid
  cases op with
  | createAndApproveFund c i a =>
      simp only [execOp, runOp, createAndApproveFund] at hfid ⊢
      split_ifs at hfid ⊢ with h1 h2 h3 h4
      · obtain ⟨hpos, hle⟩ := hfid
        have hle2 : fid ≤ s.fundCounter + 1 := hle
        by_cases hf : fid = s.fundCounter + 1
        · subst hf
          unfold FundInv
          dsimp only
          rw [mapSet_same]
          dsimp only
          constructor
          · exact Nat.zero_le _
          · constructor
            · intro hst
              exact absurd hst (by simp)
            · intro he
              omega
        · dsimp only
          rw [mapSet_other _ _ _ _ hf]
          exact h fid ⟨hpos, by omega⟩
      · exact h fid hfid
      · exact h fid hfid
      · exact h fid hfid
      · exact h fid hfid
  | distributeFund c i r a =>
      have hc : ((distributeFund s c i r a).1).fundCounter = s.fundCounter := by
        simp only [distributeFund]
        split_ifs <;> rfl
      have hrange : fundInRange s fid := by
        obtain ⟨hpos, hle⟩ := hfid
        have hle2 : fid ≤ ((distributeFund s c i r a).1).fundCounter := hle
        rw [hc] at hle2
        exact ⟨hpos, hle2⟩
      exact (distributeFund_fund_step s c i r a fid (h fid hrange)).1
  | createDisasterEvent c ty l hsh sc ap inf ia =>
      simp only [execOp, runOp, createDisasterEvent] at hfid ⊢
      split_ifs at hfid ⊢ <;> exact h fid hfid
  | verifyDisasterEvent c i =>
      simp only [execOp, runOp, verifyDisasterEvent] at hfid ⊢
      split_ifs at hfid ⊢ <;> exact h fid hfid
  | donateToEvent c i p =>
      simp only [execOp, runOp, donateToEvent] at hfid ⊢
      split_ifs at hfid ⊢ <;> exact h fid hfid
  | addAuthorizedOfficial c o =>
      simp only [execOp, runOp, addAuthorizedOfficial] at hfid ⊢
      split_ifs at hfid ⊢ <;> exact h fid hfid
  | removeAuthorizedOfficial c o =>
      simp only [execOp, runOp, removeAuthorizedOfficial] at hfid ⊢
      split_ifs at hfid ⊢ <;> exact h fid hfid
  | receiveEther c =>
      exact h fid hfid

/-- A call sequence preserves "all existing funds satisfy the invariant". -/
lemma execOps_preserves_FundInvAll (ops : List Op) (s : ContractState)
    (h : FundInvAll s) : FundInvAll (execOps ops s) := by
  induction ops generalizing s with
  | nil => exact h
  | cons op rest ih => exact ih _ (execOp_preserves_FundInvAll op s h)

/-- A fresh deployment has no funds, so the invariant holds vacuously. -/
lemma initialState_FundInvAll (d : Address) : FundInvAll (initialState d) := by
  intro fid hfid
  obtain ⟨hpos, hle⟩ := hfid
  have hle2 : fid ≤ 0 := hle
  omega

/-- All existing funds of a reachable state satisfy the fund invariant. -/
lemma reachable_FundInvAll {s : ContractState} (h : Reachable s) :
    FundInvAll s := by
  obtain ⟨d, ops, rfl⟩ := h
  exact execOps_preserves_FundInvAll ops _ (initialState_FundInvAll d)

/-! ### Claim theorems -/

/-- Claim C3: the derived severity level follows the fixed thresholds:
score ≤ 40 yields LOW, 40 < score ≤ 70 yields MEDIUM, score > 70 yields
HIGH; in particular 40 → LOW, 41 → MEDIUM, 70 → MEDIUM, 71 → HIGH.
(`getSeverityLevel` is a plain function of the score, so determinism is
immediate.) -/
theorem getSeverityLevel_thresholds (score : Nat) :
    (score ≤ 40 → getSeverityLevel score = .LOW) ∧
    (40 < score → score ≤ 70 → getSeverityLevel score = .MEDIUM) ∧
    (70 < score → getSeverityLevel score = .HIGH) ∧
    getSeverityLevel 40 = .LOW ∧ getSeverityLevel 41 = .MEDIUM ∧
    getSeverityLevel 70 = .MEDIUM ∧ getSeverityLevel 71 = .HIGH := by
  refine ⟨fun h => ?_, fun h1 h2 => ?_, fun h => ?_,
    by decide, by decide, by decide, by decide⟩ <;>
    · unfold getSeverityLevel
      split_ifs <;> first | rfl | omega

theorem getSeverityLevel_thresholds_witness :
    getSeverityLevel 41 = .MEDIUM :=
  (getSeverityLevel_thresholds 41).2.1 (by decide) (by decide)

/-- Claim C9: `createDisasterEvent` is guarded by `onlyAuthorized`: a
caller that is neither the owner nor an authorized official gets the
`Not authorized` revert and the state (hence the set of events) is
unchanged. -/
theorem createDisasterEvent_requires_authorization
    (s : ContractState) (c : Ctx) (ty : DisasterType) (l hsh : String)
    (sc ap inf ia : Nat)
    (hOwner : c.sender ≠ s.owner)
    (hOfficial : s.authorizedOfficials c.sender = false) :
    createDisasterEvent s c ty l hsh sc ap inf ia =
      (s, .error .notAuthorized) := by
  have hAuth : ¬ authorizedCheck s c := by
    unfold authorizedCheck
    rintro (h | h)
    · exact hOwner h
    · rw [hOfficial] at h; exact Bool.false_ne_true h
  unfold createDisasterEvent
  rw [if_pos hAuth]

theorem createDisasterEvent_requires_authorization_witness :
    createDisasterEvent demoS0 { sender := 3, value := 0, timestamp := 1 }
      .FLOOD "x" "h9" 10 1 1 1 = (demoS0, .error .notAuthorized) :=
  createDisasterEvent_requires_authorization demoS0
    { sender := 3, value := 0, timestamp := 1 } .FLOOD "x" "h9" 10 1 1 1
    (by decide) (by decide)

/-- Refutes claim C6 as stated: a `createDisasterEvent` call whose
infrastructure-damage percentage is 150 — outside the declared domain
[0,100] — does NOT fail: it returns event id 1 and stores the event with
`infrastructureDamage = 150`. -/
theorem createEvent_accepts_infrastructure_out_of_range :
    (createDisasterEvent demoS0 demoCtx .FLOOD "dhaka" "h1" 50 1000 150 10).2 =
      .ok 1 ∧
    ((createDisasterEvent demoS0 demoCtx .FLOOD "dhaka" "h1" 50 1000 150
        10).1.disasterEvents 1).infrastructureDamage = 150 :=
  ⟨rfl, by decide⟩

/-- Claim C6 (amended): `createDisasterEvent` rejects with the
`Invalid severity score` revert whenever the severity score is outside
[0,100], leaving the state unchanged; the infrastructure-damage
percentage (and impact area) are NOT validated — any such values are
accepted when the other checks pass. -/
theorem createEvent_numeric_validation (s : ContractState) (c : Ctx)
    (ty : DisasterType) (l hsh : String) (sc ap inf ia : Nat) :
    (authorizedCheck s c → 100 < sc →
      createDisasterEvent s c ty l hsh sc ap inf ia =
        (s, .error .invalidSeverityScore)) ∧
    (authorizedCheck s c → sc ≤ 100 → s.processedImageHashes hsh = false →
      (createDisasterEvent s c ty l hsh sc ap inf ia).2 =
        .ok (s.eventCounter + 1)) := by
  constructor
  · intro hAuth hsc
    unfold createDisasterEvent
    rw [if_neg (not_not_intro hAuth), if_pos (by omega)]
  · intro hAuth hsc hHash
    unfold createDisasterEvent
    rw [if_neg (not_not_intro hAuth), if_neg (not_not_intro hsc),
      if_neg (by simp [hHash])]

theorem createEvent_numeric_validation_witness :
    createDisasterEvent demoS0 demoCtx .FLOOD "dhaka" "h1" 101 1000 40 10 =
      (demoS0, .error .invalidSeverityScore) ∧
    (createDisasterEvent demoS0 demoCtx .FLOOD "dhaka" "h1" 50 1000 150 10).2 =
      .ok 1 :=
  ⟨(createEvent_numeric_validation demoS0 demoCtx .FLOOD "dhaka" "h1" 101
      1000 40 10).1 (by decide) (by decide),
   (createEvent_numeric_validation demoS0 demoCtx .FLOOD "dhaka" "h1" 50
      1000 150 10).2 (by decide) (by decide) (by decide)⟩

/-- Claim C7: atomicity on failure — whenever a call reverts (returns an
error), the state it returns is exactly the state it was given: no
counter, mapping, id list, balance or log is partially mutated. -/
theorem runOp_error_state_unchanged (op : Op) (s : ContractState) (e : Err)
    (h : (runOp op s).2 = .error e) : (runOp op s).1 = s := by
  cases op <;>
    simp only [runOp, createDisasterEvent, verifyDisasterEvent,
      donateToEvent, createAndApproveFund, distributeFund,
      addAuthorizedOfficial, removeAuthorizedOfficial, receiveEther,
      Except.map] at h ⊢ <;>
    first
      | (split_ifs at h ⊢ <;> simp_all)
      | simp_all

theorem runOp_error_state_unchanged_witness :
    (runOp (.verifyDisasterEvent demoCtx 1) demoS0).1 = demoS0 :=
  runOp_error_state_unchanged (.verifyDisasterEvent demoCtx 1) demoS0
    .eventDoesNotExist rfl

/-- Claim C2: the image-hash fingerprint is globally unique across all
events.  (a) A successful `createDisasterEvent` marks its fingerprint
processed; (b) no later call of any kind ever clears a processed
fingerprint; (c) a `createDisasterEvent` that reaches the duplicate check
with a processed fingerprint fails with the `Image already processed`
revert (the DuplicateError) and leaves the state — hence the first event
and the event counter — unchanged. -/
theorem fingerprint_globally_unique
    (s : ContractState) (c c2 : Ctx) (op : Op) (ty ty2 : DisasterType)
    (l l2 hsh : String) (sc ap inf ia sc2 ap2 inf2 ia2 : Nat) :
    (∀ eid, (createDisasterEvent s c ty l hsh sc ap inf ia).2 = .ok eid →
      (createDisasterEvent s c ty l hsh sc ap inf
          ia).1.processedImageHashes hsh = true) ∧
    (s.processedImageHashes hsh = true →
      (execOp op s).processedImageHashes hsh = true) ∧
    (s.processedImageHashes hsh = true → authorizedCheck s c2 → sc2 ≤ 100 →
      createDisasterEvent s c2 ty2 l2 hsh sc2 ap2 inf2 ia2 =
        (s, .error .imageAlreadyProcessed)) := by
  refine ⟨?_, ?_, ?_⟩
  · intro eid hok
    simp only [createDisasterEvent] at hok ⊢
    split_ifs at hok ⊢ with h1 h2 h3
    all_goals
      dsimp only
      rw [mapSet_same]
  · intro hp
    cases op <;>
      simp only [execOp, runOp, createDisasterEvent, verifyDisasterEvent,
        donateToEvent, createAndApproveFund, distributeFund,
        addAuthorizedOfficial, removeAuthorizedOfficial, receiveEther] <;>
      first
        | exact hp
        | (split_ifs <;>
           first
             | exact hp
             | (dsimp only
                simp [mapSet, hp]))
  · intro hp hAuth hsc
    simp only [createDisasterEvent]
    rw [if_neg (not_not_intro hAuth), if_neg (not_not_intro hsc), if_pos hp]

theorem fingerprint_globally_unique_witness :
    (createDisasterEvent demoS0 demoCtx .FLOOD "dhaka" "h1" 50 1000 40
        10).1.processedImageHashes "h1" = true ∧
    (execOp (.verifyDisasterEvent demoCtx 1) demoS1).processedImageHashes
        "h1" = true ∧
    createDisasterEvent demoS1 demoCtx .EARTHQUAKE "bogra" "h1" 60 2 2 2 =
      (demoS1, .error .imageAlreadyProcessed) :=
  ⟨(fingerprint_globally_unique demoS0 demoCtx demoCtx
      (.verifyDisasterEvent demoCtx 1) .FLOOD .FLOOD "dhaka" "dhaka" "h1"
      50 1000 40 10 50 1000 40 10).1 1 rfl,
   (fingerprint_globally_unique demoS1 demoCtx demoCtx
      (.verifyDisasterEvent demoCtx 1) .FLOOD .FLOOD "dhaka" "dhaka" "h1"
      50 1000 40 10 50 1000 40 10).2.1 (by decide),
   (fingerprint_globally_unique demoS1 demoCtx demoCtx
      (.verifyDisasterEvent demoCtx 1) .FLOOD .EARTHQUAKE "dhaka" "bogra"
      "h1" 50 1000 40 10 60 2 2 2).2.2 (by decide) (by decide) (by decide)⟩

/-- Claim C4: `verifyDisasterEvent` is not idempotent.  For an existing,
not-yet-verified event, an authorized call succeeds and sets the
verification flag, and an immediately repeated call fails with the
`Already verified` revert; a call on an already-verified event fails the
same way; an unauthorized call fails with `Not authorized`; an authorized
call on a non-existent event id fails with `Event does not exist`.  All
failing calls leave the state unchanged. -/
theorem verifyEvent_not_idempotent (s : ContractState) (c : Ctx)
    (eventId : Nat) :
    (authorizedCheck s c → eventInRange s eventId →
      (s.disasterEvents eventId).isVerified = false →
      ((verifyDisasterEvent s c eventId).2 = .ok () ∧
       ((verifyDisasterEvent s c eventId).1.disasterEvents
           eventId).isVerified = true ∧
       verifyDisasterEvent (verifyDisasterEvent s c eventId).1 c eventId =
         ((verifyDisasterEvent s c eventId).1, .error .alreadyVerified))) ∧
    (authorizedCheck s c → eventInRange s eventId →
      (s.disasterEvents eventId).isVerified = true →
      verifyDisasterEvent s c eventId = (s, .error .alreadyVerified)) ∧
    (¬ authorizedCheck s c →
      verifyDisasterEvent s c eventId = (s, .error .notAuthorized)) ∧
    (authorizedCheck s c → ¬ eventInRange s eventId →
      verifyDisasterEvent s c eventId = (s, .error .eventDoesNotExist)) := by
  refine ⟨?_, ?_, ?_, ?_⟩
  · intro hAuth hRange hVer
    have hstep : verifyDisasterEvent s c eventId =
        ({ s with disasterEvents := mapSet s.disasterEvents eventId
                    { s.disasterEvents eventId with isVerified := true },
                  log := s.log ++ [.DisasterEventVerified eventId true] },
         .ok ()) := by
      simp only [verifyDisasterEvent]
      rw [if_neg (not_not_intro hAuth), if_neg (not_not_intro hRange),
        if_neg (by simp [hVer])]
    have hfst : (verifyDisasterEvent s c eventId).1.disasterEvents eventId =
        { s.disasterEvents eventId with isVerified := true } := by
      rw [hstep]
      dsimp only
      rw [mapSet_same]
    have hAuth2 : authorizedCheck (verifyDisasterEvent s c eventId).1 c := by
      rw [hstep]
      exact hAuth
    have hRange2 : eventInRange (verifyDisasterEvent s c eventId).1
        eventId := by
      rw [hstep]
      exact hRange
    have hVer2 : ((verifyDisasterEvent s c eventId).1.disasterEvents
        eventId).isVerified = true := by
      rw [hfst]
    refine ⟨by rw [hstep], hVer2, ?_⟩
    generalize hS : (verifyDisasterEvent s c eventId).1 = s1
      at hAuth2 hRange2 hVer2 ⊢
    simp only [verifyDisasterEvent]
    rw [if_neg (not_not_intro hAuth2), if_neg (not_not_intro hRange2),
      if_pos hVer2]
  · intro hAuth hRange hVer
    simp only [verifyDisasterEvent]
    rw [if_neg (not_not_intro hAuth), if_neg (not_not_intro hRange),
      if_pos hVer]
  · intro hAuth
    simp only [verifyDisasterEvent]
    rw [if_pos hAuth]
  · intro hAuth hRange
    simp only [verifyDisasterEvent]
    rw [if_neg (not_not_intro hAuth), if_pos hRange]

theorem verifyEvent_not_idempotent_witness :
    ((verifyDisasterEvent demoS1 demoCtx 1).2 = .ok () ∧
     ((verifyDisasterEvent demoS1 demoCtx 1).1.disasterEvents
         1).isVerified = true ∧
     verifyDisasterEvent (verifyDisasterEvent demoS1 demoCtx 1).1 demoCtx 1 =
       ((verifyDisasterEvent demoS1 demoCtx 1).1, .error .alreadyVerified)) ∧
    verifyDisasterEvent demoS1 { sender := 3, value := 0, timestamp := 1 } 1 =
      (demoS1, .error .notAuthorized) ∧
    verifyDisasterEvent demoS1 demoCtx 2 =
      (demoS1, .error .eventDoesNotExist) :=
  ⟨(verifyEvent_not_idempotent demoS1 demoCtx 1).1 (by decide) (by decide)
     (by decide),
   (verifyEvent_not_idempotent demoS1
      { sender := 3, value := 0, timestamp := 1 } 1).2.2.1 (by decide),
   (verifyEvent_not_idempotent demoS1 demoCtx 2).2.2.2 (by decide)
     (by decide)⟩

/-- Claim C5: `createAndApproveFund` by an authorized caller on an
existing but unverified event fails with the `Event not verified` revert
(a ValidationError) leaving the state unchanged; a zero total amount is
rejected with `Amount must be greater than 0`; on a verified event with a
positive amount it succeeds and the new pool has status APPROVED,
distributed amount 0 and the requested total. -/
theorem createAndApproveFund_spec (s : ContractState) (c : Ctx)
    (eventId amount : Nat) :
    (authorizedCheck s c → eventInRange s eventId → 0 < amount →
      (s.disasterEvents eventId).isVerified = false →
      createAndApproveFund s c eventId amount =
        (s, .error .eventNotVerified)) ∧
    (authorizedCheck s c → eventInRange s eventId →
      createAndApproveFund s c eventId 0 = (s, .error .amountNotPositive)) ∧
    (authorizedCheck s c → eventInRange s eventId → 0 < amount →
      (s.disasterEvents eventId).isVerified = true →
      ((createAndApproveFund s c eventId amount).2 = .ok () ∧
       (createAndApproveFund s c eventId amount).1.disasterFunds
           (s.fundCounter + 1) =
         { fundId := s.fundCounter + 1, eventId := eventId,
           totalAmount := amount, distributedAmount := 0,
           createdAt := c.timestamp, approvedBy := c.sender,
           status := .APPROVED })) := by
  refine ⟨?_, ?_, ?_⟩
  · intro hAuth hRange hAmt hVer
    simp only [createAndApproveFund]
    rw [if_neg (not_not_intro hAuth), if_neg (not_not_intro hRange),
      if_neg (not_not_intro hAmt), if_pos (by simp [hVer])]
  · intro hAuth hRange
    simp only [createAndApproveFund]
    rw [if_neg (not_not_intro hAuth), if_neg (not_not_intro hRange),
      if_pos (by simp)]
  · intro hAuth hRange hAmt hVer
    have hstep : createAndApproveFund s c eventId amount =
        ({ s with fundCounter := s.fundCounter + 1,
                  disasterFunds := mapSet s.disasterFunds (s.fundCounter + 1)
                    { fundId := s.fundCounter + 1, eventId := eventId,
                      totalAmount := amount, distributedAmount := 0,
                      createdAt := c.timestamp, approvedBy := c.sender,
                      status := .APPROVED },
                  log := s.log ++ [.FundApproved (s.fundCounter + 1) eventId
                                     amount c.sender] },
         .ok ()) := by
      simp only [createAndApproveFund]
      rw [if_neg (not_not_intro hAuth), if_neg (not_not_intro hRange),
        if_neg (not_not_intro hAmt), if_neg (by simp [hVer])]
    rw [hstep]
    refine ⟨rfl, ?_⟩
    dsimp only
    rw [mapSet_same]

theorem createAndApproveFund_spec_witness :
    createAndApproveFund demoS1 demoCtx 1 100 =
      (demoS1, .error .eventNotVerified) ∧
    createAndApproveFund demoS2 demoCtx 1 0 =
      (demoS2, .error .amountNotPositive) ∧
    ((createAndApproveFund demoS2 demoCtx 1 100).2 = .ok () ∧
     (createAndApproveFund demoS2 demoCtx 1 100).1.disasterFunds 1 =
       { fundId := 1, eventId := 1, totalAmount := 100,
         distributedAmount := 0, createdAt := 5, approvedBy := 0,
         status := .APPROVED }) :=
  ⟨(createAndApproveFund_spec demoS1 demoCtx 1 100).1 (by decide)
     (by decide) (by decide) (by decide),
   (createAndApproveFund_spec demoS2 demoCtx 1 0).2.1 (by decide)
     (by decide),
   (createAndApproveFund_spec demoS2 demoCtx 1 100).2.2 (by decide)
     (by decide) (by decide) (by decide)⟩

/-- Claim C8: `donateToEvent` requires the event to exist and be verified
and the ether value to be positive; on success the recorded transaction
has status PENDING and `isBlockchainVerified = true`; and no call of any
kind ever mutates an already-recorded transaction. -/
theorem recordDonation_spec (s : ContractState) (c : Ctx) (eventId : Nat)
    (purpose : String) (op : Op) (tid : Nat) :
    (¬ eventInRange s eventId →
      donateToEvent s c eventId purpose = (s, .error .eventDoesNotExist)) ∧
    (eventInRange s eventId → c.value = 0 →
      donateToEvent s c eventId purpose =
        (s, .error .donationNotPositive)) ∧
    (eventInRange s eventId → 0 < c.value →
      (s.disasterEvents eventId).isVerified = false →
      donateToEvent s c eventId purpose = (s, .error .eventNotVerified)) ∧
    (eventInRange s eventId → 0 < c.value →
      (s.disasterEvents eventId).isVerified = true →
      ((donateToEvent s c eventId purpose).2 = .ok () ∧
       (donateToEvent s c eventId purpose).1.fundTransactions
           (s.transactionCounter + 1) =
         { transactionId := s.transactionCounter + 1, eventId := eventId,
           donor := c.sender, amount := c.value, timestamp := c.timestamp,
           status := .PENDING, purpose := purpose,
           isBlockchainVerified := true })) ∧
    (tid ≤ s.transactionCounter →
      (execOp op s).fundTransactions tid = s.fundTransactions tid) := by
  refine ⟨?_, ?_, ?_, ?_, ?_⟩
  · intro hRange
    simp only [donateToEvent]
    rw [if_pos hRange]
  · intro hRange hVal
    simp only [donateToEvent]
    rw [if_neg (not_not_intro hRange), if_pos (by omega)]
  · intro hRange hVal hVer
    simp only [donateToEvent]
    rw [if_neg (not_not_intro hRange), if_neg (not_not_intro hVal),
      if_pos (by simp [hVer])]
  · intro hRange hVal hVer
    have hstep : donateToEvent s c eventId purpose =
        ({ s with transactionCounter := s.transactionCounter + 1,
                  fundTransactions := mapSet s.fundTransactions
                    (s.transactionCounter + 1)
                    { transactionId := s.transactionCounter + 1,
                      eventId := eventId, donor := c.sender,
                      amount := c.value, timestamp := c.timestamp,
                      status := .PENDING, purpose := purpose,
                      isBlockchainVerified := true },
                  allTransactionIds := s.allTransactionIds ++
                    [s.transactionCounter + 1],
                  balance := s.balance + c.value,
                  log := s.log ++ [.FundDonated (s.transactionCounter + 1)
                                     eventId c.sender c.value] },
         .ok ()) := by
      simp only [donateToEvent]
      rw [if_neg (not_not_intro hRange), if_neg (not_not_intro hVal),
        if_neg (by simp [hVer])]
    rw [hstep]
    refine ⟨rfl, ?_⟩
    dsimp only
    rw [mapSet_same]
  · intro htid
    cases op <;>
      simp only [execOp, runOp, createDisasterEvent, verifyDisasterEvent,
        donateToEvent, createAndApproveFund, distributeFund,
        addAuthorizedOfficial, removeAuthorizedOfficial, receiveEther] <;>
      first
        | rfl
        | (split_ifs <;>
           first
             | rfl
             | (dsimp only
                rw [mapSet_other s.fundTransactions
                  (s.transactionCounter + 1) tid _ (by omega)]))

theorem recordDonation_spec_witness :
    donateToEvent demoS2 demoCtx 2 "food" =
      (demoS2, .error .eventDoesNotExist) ∧
    donateToEvent demoS2 demoCtx 1 "food" =
      (demoS2, .error .donationNotPositive) ∧
    donateToEvent demoS1 { sender := 7, value := 50, timestamp := 6 } 1
        "food" = (demoS1, .error .eventNotVerified) ∧
    ((donateToEvent demoS2 { sender := 7, value := 50, timestamp := 6 } 1
        "food").2 = .ok () ∧
     (donateToEvent demoS2 { sender := 7, value := 50, timestamp := 6 } 1
         "food").1.fundTransactions 1 =
       { transactionId := 1, eventId := 1, donor := 7, amount := 50,
         timestamp := 6, status := .PENDING, purpose := "food",
         isBlockchainVerified := true }) :=
  ⟨(recordDonation_spec demoS2 demoCtx 2 "food" (.receiveEther demoCtx)
      0).1 (by decide),
   (recordDonation_spec demoS2 demoCtx 1 "food" (.receiveEther demoCtx)
      0).2.1 (by decide) (by decide),
   (recordDonation_spec demoS1 { sender := 7, value := 50, timestamp := 6 }
      1 "food" (.receiveEther demoCtx) 0).2.2.1 (by decide) (by decide)
      (by decide),
   (recordDonation_spec demoS2 { sender := 7, value := 50, timestamp := 6 }
      1 "food" (.receiveEther demoCtx) 0).2.2.2.1 (by decide) (by decide)
      (by decide)⟩

/-- Claim C1: for every reachable state and every existing fund pool, the
pool satisfies the fund invariant (distributed ≤ total, and status is
DISTRIBUTED exactly when distributed = total); along any sequence of
`distributeFund` calls the distributed amount is non-decreasing, the
total is unchanged, the invariant is preserved, and the status only moves
forward (never away from DISTRIBUTED); and an authorized call on an
APPROVED pool whose amount would push distributed past total fails with
the `Insufficient fund balance` revert (InsufficientFundsError), leaving
the whole state unchanged. -/
theorem fund_distribution_invariant (s : ContractState) (fundId : Nat)
    (calls : List DistCall) (c : Ctx) (recip : Address) (amt : Nat)
    (hReach : Reachable s) (hRange : fundInRange s fundId) :
    FundInv (s.disasterFunds fundId) ∧
    FundInv ((execDistributes calls s).disasterFunds fundId) ∧
    (s.disasterFunds fundId).distributedAmount ≤
      ((execDistributes calls s).disasterFunds fundId).distributedAmount ∧
    ((execDistributes calls s).disasterFunds fundId).totalAmount =
      (s.disasterFunds fundId).totalAmount ∧
    statusForward (s.disasterFunds fundId).status
      ((execDistributes calls s).disasterFunds fundId).status ∧
    (authorizedCheck s c → (s.disasterFunds fundId).status = .APPROVED →
      (s.disasterFunds fundId).totalAmount <
        (s.disasterFunds fundId).distributedAmount + amt →
      distributeFund s c fundId recip amt =
        (s, .error .insufficientFundBalance)) := by
  have hInv : FundInv (s.disasterFunds fundId) :=
    reachable_FundInvAll hReach fundId hRange
  obtain ⟨g1, g2, g3, g4⟩ := execDistributes_fund_facts calls s fundId hInv
  refine ⟨hInv, g1, g2, g3, g4, ?_⟩
  intro hAuth hStatus hOver
  simp only [distributeFund]
  rw [if_neg (not_not_intro hAuth), if_neg (not_not_intro hRange),
    if_neg (not_not_intro hStatus), if_pos (by omega)]

theorem fund_distribution_invariant_witness :
    FundInv ((execDistributes demoCalls demoS4).disasterFunds 1) ∧
    (demoS4.disasterFunds 1).distributedAmount ≤
      ((execDistributes demoCalls demoS4).disasterFunds
          1).distributedAmount ∧
    ((execDistributes demoCalls demoS4).disasterFunds 1).totalAmount =
      (demoS4.disasterFunds 1).totalAmount ∧
    statusForward (demoS4.disasterFunds 1).status
      ((execDistributes demoCalls demoS4).disasterFunds 1).status ∧
    distributeFund demoS4 demoCtx 1 5 1000 =
      (demoS4, .error .insufficientFundBalance) :=
  ⟨(fund_distribution_invariant demoS4 1 demoCalls demoCtx 5 1000
      ⟨0, demoOps, rfl⟩ (by decide)).2.1,
   (fund_distribution_invariant demoS4 1 demoCalls demoCtx 5 1000
      ⟨0, demoOps, rfl⟩ (by decide)).2.2.1,
   (fund_distribution_invariant demoS4 1 demoCalls demoCtx 5 1000
      ⟨0, demoOps, rfl⟩ (by decide)).2.2.2.1,
   (fund_distribution_invariant demoS4 1 demoCalls demoCtx 5 1000
      ⟨0, demoOps, rfl⟩ (by decide)).2.2.2.2.1,
   (fund_distribution_invariant demoS4 1 demoCalls demoCtx 5 1000
      ⟨0, demoOps, rfl⟩ (by decide)).2.2.2.2.2 (by decide) (by decide)
      (by decide)⟩

/-- Claim C10: `distributeFund` does not require a positive amount.  For
any reachable state, an authorized zero-amount distribution on an
existing APPROVED fund succeeds, leaves the fund record (in particular
its distributed amount and status) unchanged, and still appends a
`FundDistributed` notification to the log. -/
theorem distribute_zero_amount (s : ContractState) (c : Ctx)
    (fundId : Nat) (recip : Address) (hReach : Reachable s)
    (hAuth : authorizedCheck s c) (hRange : fundInRange s fundId)
    (hStatus : (s.disasterFunds fundId).status = .APPROVED) :
    (distributeFund s c fundId recip 0).2 = .ok () ∧
    (distributeFund s c fundId recip 0).1.disasterFunds fundId =
      s.disasterFunds fundId ∧
    (distributeFund s c fundId recip 0).1.log =
      s.log ++ [.FundDistributed fundId
                  (s.disasterFunds fundId).eventId 0] := by
  have hInv : FundInv (s.disasterFunds fundId) :=
    reachable_FundInvAll hReach fundId hRange
  have hLt : (s.disasterFunds fundId).distributedAmount <
      (s.disasterFunds fundId).totalAmount := by
    obtain ⟨hLe, hIff⟩ := hInv
    have hNe : (s.disasterFunds fundId).distributedAmount ≠
        (s.disasterFunds fundId).totalAmount := by
      intro he
      rw [hIff.mpr he] at hStatus
      exact absurd hStatus (by simp)
    omega
  have hstep : distributeFund s c fundId recip 0 =
      ({ s with disasterFunds := mapSet s.disasterFunds fundId
                  { s.disasterFunds fundId with distributedAmount :=
                      (s.disasterFunds fundId).distributedAmount + 0 },
                balance := s.balance - 0,
                log := s.log ++ [.FundDistributed fundId
                                   (s.disasterFunds fundId).eventId 0] },
       .ok ()) := by
    simp only [distributeFund]
    rw [if_neg (not_not_intro hAuth), if_neg (not_not_intro hRange),
      if_neg (not_not_intro hStatus),
      if_neg (not_not_intro (show (s.disasterFunds
          fundId).distributedAmount + 0 ≤
          (s.disasterFunds fundId).totalAmount from by omega)),
      if_neg (not_not_intro (show (0 : Nat) ≤ s.balance from
        Nat.zero_le _))]
    rw [if_neg (show ¬ ((s.disasterFunds fundId).totalAmount ≤
        (s.disasterFunds fundId).distributedAmount + 0) from by omega)]
  rw [hstep]
  refine ⟨rfl, ?_, rfl⟩
  dsimp only
  rw [mapSet_same]
  rfl

theorem distribute_zero_amount_witness :
    (distributeFund demoS4 demoCtx 1 5 0).2 = .ok () ∧
    (distributeFund demoS4 demoCtx 1 5 0).1.disasterFunds 1 =
      demoS4.disasterFunds 1 ∧
    (distributeFund demoS4 demoCtx 1 5 0).1.log =
      demoS4.log ++ [.FundDistributed 1 (demoS4.disasterFunds 1).eventId
                       0] :=
  distribute_zero_amount demoS4 demoCtx 1 5 ⟨0, demoOps, rfl⟩ (by decide)
    (by decide) (by decide)

end DisasterRelief
